import Mathlib

/-!
Verification of the route-optimization demo backend.

Shallow embedding of `backend_v2/app/services/simulator.py` (vehicle
simulation engine) and `backend_v2/app/services/osrm_client.py` (routing
data client).  Python floats are modelled as real numbers, Python dicts
and lists as Lean structures and lists, network and randomness as
explicit oracle parameters, and the per-vehicle tick as a pure state
transformer.  An inline `await asyncio.sleep` is modelled by returning
the number of seconds the single simulation task is suspended.
-/

namespace RouteOptDemo

/-! ## Geodesic math (pure helpers shared by both modules) -/

/-- `math.radians`: degrees to radians. -/
noncomputable def radians (d : ℝ) : ℝ := d * Real.pi / 180

/-- `math.degrees`: radians to degrees. -/
noncomputable def degrees (r : ℝ) : ℝ := r * 180 / Real.pi

/-- `math.atan2 y x`, modelled as the argument of the complex number `x + y*I`.
`Complex.arg` agrees with `atan2` on every quadrant and on the axes. -/
noncomputable def atan2 (y x : ℝ) : ℝ := Complex.arg ⟨x, y⟩

/-- `VehicleSimulator._normalize_angle` (simulator.py lines 448-454).
The source loops `while angle < 0: angle += 360` / `while angle >= 360:
angle -= 360`; its result is the unique representative of `angle` modulo
360 inside `[0, 360)`, which is `angle - 360 * ⌊angle / 360⌋`. -/
noncomputable def normalizeAngle (angle : ℝ) : ℝ := angle - 360 * ⌊angle / 360⌋

/-- `VehicleSimulator._calculate_distance` (simulator.py lines 392-409):
haversine great-circle distance in kilometers, Earth radius 6371 km. -/
noncomputable def calculateDistance (lat1 lon1 lat2 lon2 : ℝ) : ℝ :=
  let R : ℝ := 6371
  let lat1r := radians lat1
  let lon1r := radians lon1
  let lat2r := radians lat2
  let lon2r := radians lon2
  let dlat := lat2r - lat1r
  let dlon := lon2r - lon1r
  let a := Real.sin (dlat / 2) ^ 2 +
    Real.cos lat1r * Real.cos lat2r * Real.sin (dlon / 2) ^ 2
  let c := 2 * Real.arcsin (Real.sqrt a)
  R * c

/-- `VehicleSimulator._calculate_bearing` (simulator.py lines 411-425). -/
noncomputable def calculateBearing (lat1 lon1 lat2 lon2 : ℝ) : ℝ :=
  let lat1r := radians lat1
  let lat2r := radians lat2
  let dlonr := radians (lon2 - lon1)
  let y := Real.sin dlonr * Real.cos lat2r
  let x := Real.cos lat1r * Real.sin lat2r -
    Real.sin lat1r * Real.cos lat2r * Real.cos dlonr
  normalizeAngle (degrees (atan2 y x))

/-- `VehicleSimulator._move_along_bearing` (simulator.py lines 427-446):
great-circle destination point. -/
noncomputable def moveAlongBearing (lat lon bearing distanceKm : ℝ) : ℝ × ℝ :=
  let R : ℝ := 6371
  let latr := radians lat
  let lonr := radians lon
  let bearingr := radians bearing
  let lat2r := Real.arcsin (Real.sin latr * Real.cos (distanceKm / R) +
    Real.cos latr * Real.sin (distanceKm / R) * Real.cos bearingr)
  let lon2r := lonr + atan2
    (Real.sin bearingr * Real.sin (distanceKm / R) * Real.cos latr)
    (Real.cos (distanceKm / R) - Real.sin latr * Real.sin lat2r)
  (degrees lat2r, degrees lon2r)

/-- `EnhancedOSRMClient._haversine_distance` (osrm_client.py lines 237-253):
haversine distance in kilometers between two `(lat, lon)` pairs. -/
noncomputable def haversineDistance (point1 point2 : ℝ × ℝ) : ℝ :=
  let lat1 := radians point1.1
  let lon1 := radians point1.2
  let lat2 := radians point2.1
  let lon2 := radians point2.2
  let dlat := lat2 - lat1
  let dlon := lon2 - lon1
  let a := Real.sin (dlat / 2) ^ 2 +
    Real.cos lat1 * Real.cos lat2 * Real.sin (dlon / 2) ^ 2
  let c := 2 * Real.arcsin (Real.sqrt a)
  c * 6371

/-! ## Data model -/

/-- `VehicleStatus` enum (simulator.py lines 17-22). -/
inductive VehicleStatus where
  | IDLE
  | MOVING
  | DELIVERING
  | RETURNING
  | COMPLETED
deriving DecidableEq, Repr

/-- `RoutePoint` dataclass (osrm_client.py lines 16-23). -/
structure RoutePoint where
  latitude : ℝ
  longitude : ℝ
  name : String := ""
  weight : ℝ := 0
  deliveryTimeMinutes : ℕ := 5
deriving Inhabited

/-- `RouteGeometry` dataclass (osrm_client.py lines 25-32); coordinates are
`(lat, lon)` samples, distance in meters, duration in seconds.  The
turn-by-turn step dicts are modelled opaquely as strings. -/
structure RouteGeometry where
  coordinates : List (ℝ × ℝ)
  distance : ℝ
  duration : ℝ
  steps : List String := []
  geometryString : String := ""

/-- One order dict as consumed by `_initialize_vehicle_route`
(simulator.py lines 162-168): a location and a weight. -/
structure OrderLocation where
  lat : ℝ
  lon : ℝ
  name : String := ""

structure Order where
  location : OrderLocation
  weight : ℝ

/-- `SimulationRoute` dataclass (simulator.py lines 55-63). -/
structure SimulationRoute where
  vehicleId : String
  waypoints : List RoutePoint
  geometry : Option RouteGeometry := none
  totalDistance : ℝ := 0
  estimatedTime : ℝ := 0
  orders : List Order := []

/-- `VehicleState` dataclass (simulator.py lines 24-37). -/
structure VehicleState where
  vehicleId : String
  latitude : ℝ
  longitude : ℝ
  speed : ℝ
  heading : ℝ
  status : VehicleStatus
  currentCargo : ℝ
  fuelUsed : ℝ
  progress : ℝ
  currentOrderIndex : ℕ := 0
  lastUpdated : ℝ := 0

/-- The simulator's tunable parameters with the defaults set in
`VehicleSimulator.__init__` (simulator.py lines 71-94). -/
structure SimParams where
  updateInterval : ℝ := 2
  simulationSpeedMultiplier : ℝ := 100
  averageSpeed : ℝ := 45
  deliveryTime : ℝ := 3
  maxSpeed : ℝ := 80
  minSpeed : ℝ := 20
  accelerationRate : ℝ := 10
  decelerationRate : ℝ := 15

/-- Default simulator configuration. -/
noncomputable def defaultParams : SimParams := {}

/-! ## Simulation engine (simulator.py) -/

/-- `VehicleSimulator._calculate_target_speed` (simulator.py lines 372-390).
`traffic` is the value drawn by `random.uniform(0.8, 1.2)`, supplied as an
explicit oracle. -/
noncomputable def calculateTargetSpeed (p : SimParams) (s : VehicleState)
    (traffic : ℝ) : ℝ :=
  if s.status = .DELIVERING then 0
  else if s.status = .IDLE then 0
  else
    let weightFactor := 1 - s.currentCargo / 2000 * 0.2
    let baseSpeed := p.averageSpeed * weightFactor * traffic
    max p.minSpeed (min p.maxSpeed baseSpeed)

/-- The heading-adjustment step of `_move_vehicle_towards_target`
(simulator.py lines 291-301): turn at most 30 degrees toward `bearing`,
direction given by the sign of the normalized difference. -/
noncomputable def updateHeading (heading bearing : ℝ) : ℝ :=
  let headingDiff := normalizeAngle (bearing - heading)
  let maxTurnRate : ℝ := 30
  let h1 := if |headingDiff| > maxTurnRate then
    heading + (if headingDiff > 0 then 1 else -1) * maxTurnRate
  else bearing
  normalizeAngle h1

/-- `VehicleSimulator._move_vehicle_towards_target`
(simulator.py lines 282-336). -/
noncomputable def moveVehicleTowardsTarget (p : SimParams) (s : VehicleState)
    (target : RoutePoint) (traffic now : ℝ) : VehicleState :=
  let bearing := calculateBearing s.latitude s.longitude
    target.latitude target.longitude
  let heading := updateHeading s.heading bearing
  let targetSpeed := calculateTargetSpeed p s traffic
  let speedDiff := targetSpeed - s.speed
  let maxAcceleration :=
    (if speedDiff > 0 then p.accelerationRate else p.decelerationRate) *
      p.updateInterval
  let speed0 := if |speedDiff| > maxAcceleration then
    s.speed + (if speedDiff > 0 then maxAcceleration else -maxAcceleration)
  else targetSpeed
  let speed := max 0 (min p.maxSpeed speed0)
  let distanceKm := speed * p.simulationSpeedMultiplier * p.updateInterval / 3600
  let newPos := moveAlongBearing s.latitude s.longitude heading distanceKm
  let fuelRate := 0.08 + s.currentCargo / 1000 * 0.02
  { s with
    heading := heading
    speed := speed
    latitude := newPos.1
    longitude := newPos.2
    lastUpdated := now
    fuelUsed := s.fuelUsed + distanceKm * fuelRate }

/-- `VehicleSimulator._handle_waypoint_arrival` (simulator.py lines 338-370).
Returns the vehicle state at the end of the call together with the number of
seconds of `await asyncio.sleep` performed inline while handling the arrival
(the simulated delivery pause, `delivery_time * 60 / multiplier`).  At an
interior waypoint the status is `DELIVERING` during that sleep and is set
back to `MOVING` before the call returns. -/
noncomputable def handleWaypointArrival (p : SimParams) (s : VehicleState)
    (route : SimulationRoute) (waypointIndex : ℕ) : VehicleState × ℝ :=
  if waypointIndex = 0 then
    ({ s with status := .MOVING, currentOrderIndex := 0 }, 0)
  else if waypointIndex = route.waypoints.length - 1 then
    ({ s with
        status := .COMPLETED
        progress := 100
        currentCargo := 0
        speed := 0 }, 0)
  else
    let cargo := match route.orders[waypointIndex - 1]? with
      | some order => s.currentCargo - order.weight
      | none => s.currentCargo
    ({ s with
        status := .MOVING
        currentOrderIndex := waypointIndex
        currentCargo := cargo
        progress := ((waypointIndex : ℝ) / ((route.waypoints.length : ℝ) - 1)) * 100 },
     p.deliveryTime * 60 / p.simulationSpeedMultiplier)

/-- `VehicleSimulator._update_vehicle_position` (simulator.py lines 248-280):
one per-vehicle tick.  Second component: inline sleep seconds (0 unless an
interior-waypoint arrival happened). -/
noncomputable def updateVehiclePosition (p : SimParams) (s : VehicleState)
    (route : SimulationRoute) (traffic now : ℝ) : VehicleState × ℝ :=
  if s.status = .COMPLETED then (s, 0)
  else
    let targetIdx := min (s.currentOrderIndex + 1) (route.waypoints.length - 1)
    match route.waypoints[targetIdx]? with
    | none => ({ s with status := .COMPLETED, progress := 100 }, 0)
    | some target =>
      let s1 := moveVehicleTowardsTarget p s target traffic now
      let d := calculateDistance s1.latitude s1.longitude
        target.latitude target.longitude
      if d < 0.1 then handleWaypointArrival p s1 route targetIdx
      else (s1, 0)

/-- Waypoint-list construction in `_initialize_vehicle_route`
(simulator.py lines 160-170): depot, then one point per order, then the
depot again. -/
def buildWaypoints (depot : RoutePoint) (orders : List Order) : List RoutePoint :=
  depot :: (orders.map (fun o =>
    { latitude := o.location.lat
      longitude := o.location.lon
      name := o.location.name
      weight := o.weight }) ++ [depot])

/-- Vehicle-state construction in `_initialize_vehicle_route`
(simulator.py lines 193-208): at the depot, zero speed/heading/fuel/progress,
status `IDLE`, cargo the sum of the route's order weights. -/
def initialVehicleState (vehicleId : String) (depot : RoutePoint)
    (orders : List Order) (t0 : ℝ) : VehicleState :=
  { vehicleId := vehicleId
    latitude := depot.latitude
    longitude := depot.longitude
    speed := 0
    heading := 0
    status := .IDLE
    currentCargo := (orders.map Order.weight).sum
    fuelUsed := 0
    progress := 0
    currentOrderIndex := 0
    lastUpdated := t0 }

/-- Iterated ticks of one vehicle, as performed by the simulation loop
(simulator.py lines 218-226) when it is the only vehicle: tick `n` uses the
`n`-th traffic draw and the `n`-th wall-clock time. -/
noncomputable def iterateTicks (p : SimParams) (route : SimulationRoute)
    (traffic times : ℕ → ℝ) (s0 : VehicleState) : ℕ → VehicleState
  | 0 => s0
  | n + 1 =>
    (updateVehiclePosition p (iterateTicks p route traffic times s0 n)
      route (traffic n) (times n)).1

/-- One tick of `_simulation_loop` (simulator.py lines 218-239) over the
vehicle collection: vehicles are processed sequentially on the single
simulation task, each `await _update_vehicle_position` completing (including
any inline delivery sleep) before the next vehicle is touched.  Each vehicle
is paired with the amount of inline sleep accumulated before its own update
begins; the second result is the total inline sleep of the whole tick, which
delays the end-of-tick broadcast.  Each triple carries the vehicle's state,
its route, and its `random.uniform` traffic draw for this tick. -/
noncomputable def runTickGo (p : SimParams) (now : ℝ) :
    List (VehicleState × SimulationRoute × ℝ) → ℝ → List (VehicleState × ℝ) × ℝ
  | [], acc => ([], acc)
  | (s, route, traffic) :: rest, acc =>
    let step := if s.status = .COMPLETED then (s, (0 : ℝ))
      else updateVehiclePosition p s route traffic now
    let tail := runTickGo p now rest (acc + step.2)
    ((step.1, acc) :: tail.1, tail.2)

/-- Entry point for one tick of the simulation loop. -/
noncomputable def runTick (p : SimParams) (now : ℝ)
    (vehicles : List (VehicleState × SimulationRoute × ℝ)) :
    List (VehicleState × ℝ) × ℝ :=
  runTickGo p now vehicles 0

/-- `VehicleSimulator.set_simulation_speed` (simulator.py lines 501-504). -/
noncomputable def setSimulationSpeed (multiplier : ℝ) : ℝ :=
  max 1 (min 1000 multiplier)

/-- Initial value of `simulation_speed_multiplier`
(simulator.py line 78). -/
noncomputable def initialSimulationSpeedMultiplier : ℝ := 100

/-- Values the `simulation_speed_multiplier` attribute can hold: it is set
to 100 by `__init__` and mutated only by `set_simulation_speed` (no other
assignment exists in the repository). -/
inductive MultiplierReachable : ℝ → Prop where
  | start : MultiplierReachable initialSimulationSpeedMultiplier
  | set (m prev : ℝ) : MultiplierReachable prev →
      MultiplierReachable (setSimulationSpeed m)

/-! ## Routing data client (osrm_client.py) -/

/-- Outcome of one HTTP request: a response with a status code and a parsed
body, or a raised exception (timeout / connection error). -/
inductive HttpResult (α : Type) where
  | resp (status : ℕ) (body : α)
  | exn

/-- Parsed body of the OSRM `/route` endpoint: `code`, and the `routes`
array.  Coordinates come back as `(lon, lat)`; the per-leg step dicts are
modelled opaquely as strings. -/
structure OsrmRouteData where
  coordinates : List (ℝ × ℝ)
  distance : ℝ
  duration : ℝ
  legs : List (List String) := []
  geometryRaw : String := ""

structure OsrmRouteBody where
  codeOk : Bool
  routes : List OsrmRouteData

/-- Parsed body of the OSRM `/table` endpoint: `code` and the `distances`
matrix in meters. -/
structure OsrmTableBody where
  codeOk : Bool
  distances : List (List ℝ)

/-- Parsed body of the OSRM `/trip` endpoint: `code` and, per trip, the
`waypoint_index` of each leg. -/
structure OsrmTripBody where
  codeOk : Bool
  trips : List (List ℕ)

/-- Mutable fields of `EnhancedOSRMClient` relevant to route geometry
(osrm_client.py lines 40-54).  The route cache is keyed in the source by the
`"route_" + coord_string` string built from the ordered `(lon, lat)` path;
the key is modelled by that coordinate list itself.  Each entry also stores
its insertion timestamp. -/
structure OsrmClientState where
  primaryUrl : String := "https://router.project-osrm.org"
  fallbackUrl : String := "http://localhost:5000"
  currentUrl : String := "https://router.project-osrm.org"
  routeCache : List (List (ℝ × ℝ) × RouteGeometry × ℝ) := []
  cacheTtl : ℝ := 3600
  maxRetries : ℕ := 3
  retryDelay : ℝ := 1

open scoped Classical in
/-- Cache lookup in `get_route_geometry_async` (osrm_client.py lines
144-149): an entry younger than the TTL is returned; a stale entry is
treated as absent (lazy eviction). -/
noncomputable def cacheLookup (cache : List (List (ℝ × ℝ) × RouteGeometry × ℝ))
    (key : List (ℝ × ℝ)) (now ttl : ℝ) : Option RouteGeometry :=
  match cache.find? (fun e => decide (e.1 = key)) with
  | some e => if now - e.2.2 < ttl then some e.2.1 else none
  | none => none

/-- `EnhancedOSRMClient._fetch_route_geometry` (osrm_client.py lines
167-198): a single request to the current endpoint — no loop, no retry, no
endpoint switch.  `none` models the raised exception (network error,
non-200 status, bad `code`, or empty `routes`). -/
def fetchRouteGeometry : HttpResult OsrmRouteBody → Option RouteGeometry
  | .resp status body =>
    if status = 200 then
      match body.routes with
      | route :: _ =>
        if body.codeOk = true then
          some { coordinates := route.coordinates.map (fun c => (c.2, c.1))
                 distance := route.distance
                 duration := route.duration
                 steps := route.legs.flatten
                 geometryString := route.geometryRaw }
        else none
      | [] => none
    else none
  | .exn => none

/-- `EnhancedOSRMClient._create_fallback_geometry` (osrm_client.py lines
200-220): straight-line path through the given points, haversine segment
distances, 50 km/h duration estimate. -/
noncomputable def createFallbackGeometry (points : List RoutePoint) : RouteGeometry :=
  let coordinates := points.map fun pt => (pt.latitude, pt.longitude)
  let totalDistance :=
    ((coordinates.zip coordinates.tail).map fun pr => haversineDistance pr.1 pr.2).sum
  let duration := totalDistance / 50 * 3600
  { coordinates := coordinates
    distance := totalDistance * 1000
    duration := duration
    steps := []
    geometryString := "" }

/-- Result of `get_route_geometry_async`, instrumented with the number of
network requests the call issued and whether the local fallback was used. -/
structure GeometryFetchOutcome where
  geometry : RouteGeometry
  requestsMade : ℕ
  usedFallback : Bool
  routeCacheAfter : List (List (ℝ × ℝ) × RouteGeometry × ℝ)

/-- `EnhancedOSRMClient.get_route_geometry_async` (osrm_client.py lines
128-165): build the ordered point list, check the cache, otherwise issue one
request via `_fetch_route_geometry`; cache a success; on any failure return
`_create_fallback_geometry` (nothing is cached on failure).  `net` maps a
request ordinal and URL to that request's outcome. -/
noncomputable def getRouteGeometryAsync (client : OsrmClientState)
    (net : ℕ → String → HttpResult OsrmRouteBody)
    (startP endP : RoutePoint) (viaPoints : List RoutePoint) (now : ℝ) :
    GeometryFetchOutcome :=
  let allPoints := startP :: (viaPoints ++ [endP])
  let key := allPoints.map fun pt => (pt.longitude, pt.latitude)
  match cacheLookup client.routeCache key now client.cacheTtl with
  | some g =>
    { geometry := g
      requestsMade := 0
      usedFallback := false
      routeCacheAfter := client.routeCache }
  | none =>
    match fetchRouteGeometry (net 0 client.currentUrl) with
    | some g =>
      { geometry := g
        requestsMade := 1
        usedFallback := false
        routeCacheAfter := (key, g, now) :: client.routeCache }
    | none =>
      { geometry := createFallbackGeometry allPoints
        requestsMade := 1
        usedFallback := true
        routeCacheAfter := client.routeCache }

/-- The retry loop of `EnhancedOSRMClient._fetch_distance_matrix`
(osrm_client.py lines 100-126), for contrast with the geometry path: up to
`max_retries` attempts; a 200/`Ok` response returns the matrix divided by
1000; a bad response on the primary URL at attempt 0 switches the current
URL to the fallback for the remaining attempts (and, in the source, for the
whole client from then on); an exception backs off and retries.  Arguments:
remaining attempts, attempt ordinal, current URL, requests made so far.
Returns the matrix (or `none` once every attempt failed), the final current
URL, and the number of requests made. -/
noncomputable def fetchDistanceMatrixGo (net : ℕ → String → HttpResult OsrmTableBody)
    (primary fallbackU : String) :
    ℕ → ℕ → String → ℕ → Option (List (List ℝ)) × String × ℕ
  | 0, _, url, made => (none, url, made)
  | rem + 1, attempt, url, made =>
    match net attempt url with
    | .resp status body =>
      if status = 200 ∧ body.codeOk = true then
        (some (body.distances.map (fun row => row.map (fun d => d / 1000))),
          url, made + 1)
      else if url = primary ∧ attempt = 0 then
        fetchDistanceMatrixGo net primary fallbackU rem (attempt + 1)
          fallbackU (made + 1)
      else
        fetchDistanceMatrixGo net primary fallbackU rem (attempt + 1)
          url (made + 1)
    | .exn =>
      fetchDistanceMatrixGo net primary fallbackU rem (attempt + 1)
        url (made + 1)

/-- `_fetch_distance_matrix` entry point: loop over `max_retries` attempts
starting from the client's current URL. -/
noncomputable def fetchDistanceMatrix (net : ℕ → String → HttpResult OsrmTableBody)
    (client : OsrmClientState) : Option (List (List ℝ)) × String × ℕ :=
  fetchDistanceMatrixGo net client.primaryUrl client.fallbackUrl
    client.maxRetries 0 client.currentUrl 0

/-- `EnhancedOSRMClient.get_optimized_route_order` (osrm_client.py lines
260-288): one request to the trip endpoint; on a 200/`Ok` response with a
nonempty `trips` array, the legs' positive waypoint indices shifted down by
one; on any failure (exception, bad status, bad code, no trips) the original
order `[0, …, n-1]`.  No cache is consulted and no local optimization is
attempted. -/
def getOptimizedRouteOrder (r : HttpResult OsrmTripBody)
    (_depot : RoutePoint) (deliveryPoints : List RoutePoint) : List ℕ :=
  match r with
  | .resp status body =>
    if status = 200 ∧ body.codeOk = true ∧ body.trips ≠ [] then
      match body.trips with
      | legs :: _ => (legs.filter (fun idx => 0 < idx)).map (fun idx => idx - 1)
      | [] => List.range deliveryPoints.length
    else List.range deliveryPoints.length
  | .exn => List.range deliveryPoints.length

/-! ## Helper lemmas -/

theorem normalizeAngle_nonneg (a : ℝ) : 0 ≤ normalizeAngle a := by
  have h := Int.floor_le (a / 360)
  unfold normalizeAngle
  nlinarith

theorem normalizeAngle_lt (a : ℝ) : normalizeAngle a < 360 := by
  have h := Int.lt_floor_add_one (a / 360)
  unfold normalizeAngle
  nlinarith

/-- `normalizeAngle` sends `r + 360 k` to `r` when `r ∈ [0, 360)`:
the result of the source's normalization loop. -/
theorem normalizeAngle_eq_of (a r : ℝ) (k : ℤ) (hk : a = r + 360 * k)
    (h0 : 0 ≤ r) (h1 : r < 360) : normalizeAngle a = r := by
  unfold normalizeAngle
  have hd : a / 360 = r / 360 + k := by
    rw [hk]; ring
  have hfl : ⌊a / 360⌋ = k := by
    rw [hd, Int.floor_add_int, Int.floor_eq_zero_iff.mpr, zero_add]
    constructor
    · positivity
    · rw [div_lt_one (by norm_num : (0:ℝ) < 360)]; exact h1
  rw [hfl, hk]; ring

theorem normalizeAngle_self (r : ℝ) (h0 : 0 ≤ r) (h1 : r < 360) :
    normalizeAngle r = r :=
  normalizeAngle_eq_of r r 0 (by ring) h0 h1

theorem atan2_zero_pos (x : ℝ) (hx : 0 < x) : atan2 0 x = 0 := by
  unfold atan2
  have : (⟨x, 0⟩ : ℂ) = (x : ℂ) := by
    apply Complex.ext <;> simp
  rw [this, Complex.arg_ofReal_of_nonneg hx.le]

theorem atan2_zero_zero : atan2 0 0 = 0 := by
  unfold atan2
  have : (⟨0, 0⟩ : ℂ) = (0 : ℂ) := by
    apply Complex.ext <;> simp
  rw [this, Complex.arg_zero]

theorem radians_zero : radians 0 = 0 := by simp [radians]

theorem degrees_zero : degrees 0 = 0 := by simp [degrees]

theorem degrees_radians (d : ℝ) : degrees (radians d) = d := by
  unfold degrees radians
  field_simp

/-- Moving zero distance from a point on the equator does not move it. -/
theorem moveAlongBearing_equator_zero (lon bearing : ℝ) :
    moveAlongBearing 0 lon bearing 0 = (0, lon) := by
  unfold moveAlongBearing
  simp only [radians_zero, zero_div, Real.sin_zero, Real.cos_zero]
  rw [show (0:ℝ) * 1 + 1 * 0 * Real.cos (radians bearing) = 0 by ring]
  rw [Real.arcsin_zero]
  rw [show Real.sin (radians bearing) * 0 * 1 = 0 by ring]
  rw [show (1:ℝ) - 0 * Real.sin 0 = 1 by simp]
  rw [atan2_zero_pos 1 one_pos, add_zero, degrees_zero, degrees_radians]

/-- Haversine distance of a point to itself is zero. -/
theorem calculateDistance_self (lat lon : ℝ) :
    calculateDistance lat lon lat lon = 0 := by
  unfold calculateDistance
  simp

/-- Bearing from a point of the equator to itself evaluates to zero
(`atan2(0, 0) = 0` in the source as in the model). -/
theorem calculateBearing_equator_self (lon : ℝ) :
    calculateBearing 0 lon 0 lon = 0 := by
  unfold calculateBearing
  simp only [sub_self, radians_zero, Real.sin_zero, Real.cos_zero]
  rw [show (0:ℝ) * 1 = 0 by ring, show (1:ℝ) * 0 - 0 * 1 = 0 by ring]
  rw [atan2_zero_zero, degrees_zero]
  exact normalizeAngle_self 0 le_rfl (by norm_num)

/-- The haversine distance from `(0, 0)` to `(0, 90)` is a quarter of the
Earth's great circle: `6371 * π / 2` kilometers. -/
theorem calculateDistance_quarter : calculateDistance 0 0 0 90 = 6371 * (Real.pi / 2) := by
  unfold calculateDistance
  simp only [radians_zero, sub_self, sub_zero, zero_div, Real.sin_zero, Real.cos_zero]
  have h90 : radians 90 = Real.pi / 2 := by unfold radians; ring
  rw [h90]
  have hs : Real.sin (Real.pi / 2 / 2) = Real.sqrt 2 / 2 := by
    rw [show Real.pi / 2 / 2 = Real.pi / 4 by ring, Real.sin_pi_div_four]
  rw [hs]
  have h2 : (Real.sqrt 2 / 2) ^ 2 = 1 / 2 := by
    rw [div_pow, Real.sq_sqrt (by norm_num : (0:ℝ) ≤ 2)]
    norm_num
  rw [show (0:ℝ) ^ 2 + 1 * 1 * (Real.sqrt 2 / 2) ^ 2 = (Real.sqrt 2 / 2) ^ 2 by ring]
  rw [Real.sqrt_sq (by positivity), show Real.sqrt 2 / 2 = Real.sin (Real.pi / 4) by
    rw [Real.sin_pi_div_four]]
  rw [Real.arcsin_sin (by linarith [Real.pi_pos]) (by linarith [Real.pi_pos])]
  ring

theorem quarter_not_small : ¬ (6371 * (Real.pi / 2) < 0.1) := by
  have := Real.pi_gt_three
  nlinarith

/-! ## Concrete run of the spec's single-vehicle scenario

Depot at `(0, 0)`, one delivery of weight 100 kg at `(0, 90)` (a quarter
of the Earth away, so certainly farther than the 100 m arrival
threshold), as in the spec's one-vehicle example. -/

noncomputable def depotC1 : RoutePoint := { latitude := 0, longitude := 0, name := "depot" }

noncomputable def orderC1 : Order :=
  { location := { lat := 0, lon := 90, name := "stop-1" }, weight := 100 }

/-- The waypoint `buildWaypoints` creates for `orderC1`. -/
noncomputable def stopC1 : RoutePoint :=
  { latitude := 0, longitude := 90, name := "stop-1", weight := 100 }

noncomputable def routeC1 : SimulationRoute :=
  { vehicleId := "veh-1"
    waypoints := buildWaypoints depotC1 [orderC1]
    orders := [orderC1] }

noncomputable def initC1 : VehicleState :=
  initialVehicleState "veh-1" depotC1 [orderC1] 0

noncomputable def ticksC1 (traffic times : ℕ → ℝ) : ℕ → VehicleState :=
  iterateTicks defaultParams routeC1 traffic times initC1

theorem routeC1_waypoints : routeC1.waypoints = [depotC1, stopC1, depotC1] := rfl

/-- One tick of an `IDLE` vehicle of the scenario: the target speed is 0,
so the vehicle does not move, stays farther than 100 m from its first
target waypoint, and remains `IDLE` — only its heading and timestamp
change. -/
theorem idle_tick_routeC1 (s : VehicleState) (hs : s.status = .IDLE)
    (hla : s.latitude = 0) (hlo : s.longitude = 0) (hsp : s.speed = 0)
    (hoi : s.currentOrderIndex = 0) (traffic now : ℝ) :
    updateVehiclePosition defaultParams s routeC1 traffic now =
      ({ s with
          heading := updateHeading s.heading (calculateBearing 0 0 0 90)
          latitude := 0
          longitude := 0
          speed := 0
          lastUpdated := now }, 0) := by
  unfold updateVehiclePosition
  simp only [hs, hoi, routeC1_waypoints]
  norm_num
  unfold moveVehicleTowardsTarget calculateTargetSpeed
  simp only [hs, hla, hlo, hsp]
  norm_num [defaultParams, stopC1, moveAlongBearing_equator_zero,
    calculateDistance_quarter]
  rw [if_neg (by decide : ¬ (VehicleStatus.IDLE = VehicleStatus.COMPLETED)),
    if_neg (show ¬ (6371 * (Real.pi / 2) < 1 / 10) by
      have := Real.pi_gt_three; nlinarith), hoi]

theorem moveVehicleTowardsTarget_speed_nonneg (p : SimParams) (s : VehicleState)
    (target : RoutePoint) (traffic now : ℝ) :
    0 ≤ (moveVehicleTowardsTarget p s target traffic now).speed := by
  unfold moveVehicleTowardsTarget
  exact le_max_left _ _

theorem moveVehicleTowardsTarget_speed_le (p : SimParams) (s : VehicleState)
    (target : RoutePoint) (traffic now : ℝ) (hM : 0 ≤ p.maxSpeed) :
    (moveVehicleTowardsTarget p s target traffic now).speed ≤ p.maxSpeed := by
  unfold moveVehicleTowardsTarget
  exact max_le hM (min_le_left _ _)

theorem updateHeading_nonneg (h b : ℝ) : 0 ≤ updateHeading h b :=
  normalizeAngle_nonneg _

theorem updateHeading_lt (h b : ℝ) : updateHeading h b < 360 :=
  normalizeAngle_lt _

theorem moveVehicleTowardsTarget_heading_nonneg (p : SimParams)
    (s : VehicleState) (target : RoutePoint) (traffic now : ℝ) :
    0 ≤ (moveVehicleTowardsTarget p s target traffic now).heading := by
  unfold moveVehicleTowardsTarget
  exact updateHeading_nonneg _ _

theorem moveVehicleTowardsTarget_heading_lt (p : SimParams)
    (s : VehicleState) (target : RoutePoint) (traffic now : ℝ) :
    (moveVehicleTowardsTarget p s target traffic now).heading < 360 := by
  unfold moveVehicleTowardsTarget
  exact updateHeading_lt _ _

/-! ## Claims -/

/-- Claim C1.  The claim states that a vehicle starting at the depot with
`k` interior stops passes through exactly `k` `DELIVERING` episodes before
becoming `COMPLETED`.  The code cannot deliver this: the only transition
out of `IDLE` is the arrival handler's `waypoint_index == 0` branch, which
is unreachable because the first target index is `min(1, len-1) ≥ 1`, and
while `IDLE` the target speed is 0.  In the spec's own one-vehicle
scenario (depot, one stop farther than the 100 m threshold, here a quarter
of the Earth away) the vehicle stays `IDLE` at the depot with its full
cargo forever — zero `DELIVERING` episodes, never `COMPLETED` — for every
number of ticks and every traffic/timestamp sequence. -/
theorem spec2_C1_idle_stuck (traffic times : ℕ → ℝ) (n : ℕ) :
    (ticksC1 traffic times n).status = .IDLE ∧
    (ticksC1 traffic times n).latitude = 0 ∧
    (ticksC1 traffic times n).longitude = 0 ∧
    (ticksC1 traffic times n).currentCargo = 100 ∧
    (ticksC1 traffic times n).status ≠ .COMPLETED := by
  suffices h : (ticksC1 traffic times n).status = .IDLE ∧
      (ticksC1 traffic times n).latitude = 0 ∧
      (ticksC1 traffic times n).longitude = 0 ∧
      (ticksC1 traffic times n).speed = 0 ∧
      (ticksC1 traffic times n).currentOrderIndex = 0 ∧
      (ticksC1 traffic times n).currentCargo = 100 by
    refine ⟨h.1, h.2.1, h.2.2.1, h.2.2.2.2.2, ?_⟩
    rw [h.1]; decide
  induction n with
  | zero =>
    refine ⟨rfl, rfl, rfl, rfl, rfl, ?_⟩
    show ([orderC1].map Order.weight).sum = 100
    simp [orderC1]
  | succ n ih =>
    obtain ⟨h1, h2, h3, h4, h5, h6⟩ := ih
    have hrw : ticksC1 traffic times (n + 1) =
        { ticksC1 traffic times n with
            heading := updateHeading (ticksC1 traffic times n).heading
              (calculateBearing 0 0 0 90)
            latitude := 0
            longitude := 0
            speed := 0
            lastUpdated := times n } := by
      show (updateVehiclePosition defaultParams (ticksC1 traffic times n)
        routeC1 (traffic n) (times n)).1 = _
      rw [idle_tick_routeC1 _ h1 h2 h3 h4 h5 (traffic n) (times n)]
    rw [hrw]
    exact ⟨h1, rfl, rfl, rfl, h5, h6⟩

/-- Claim C2, counterexample.  The claim asserts that after every
per-vehicle advance the speed lies within `[min_speed, max_speed]`
= `[20, 80]`.  In the concrete scenario, one tick of the initial `IDLE`
vehicle leaves its speed at 0, which is below `min_speed`. -/
theorem spec2_C2_counterexample :
    (updateVehiclePosition defaultParams initC1 routeC1 1 0).1.speed = 0 ∧
    ¬ (defaultParams.minSpeed ≤
        (updateVehiclePosition defaultParams initC1 routeC1 1 0).1.speed) := by
  rw [idle_tick_routeC1 initC1 rfl rfl rfl rfl rfl 1 0]
  refine ⟨rfl, ?_⟩
  show ¬ ((20 : ℝ) ≤ 0)
  norm_num

/-- Claim C2, amended: after the per-vehicle advance of any non-completed
vehicle on a route with at least two waypoints, the speed lies within
`[0, max_speed]` (the source clamps with `max(0, min(max_speed, ·))`, and
the arrival handler only ever lowers speed to 0) and the heading lies
within `[0, 360)`. -/
theorem spec2_C2_amended (s : VehicleState) (route : SimulationRoute)
    (traffic now : ℝ) (h1 : s.status ≠ .COMPLETED)
    (h2 : 2 ≤ route.waypoints.length) :
    0 ≤ (updateVehiclePosition defaultParams s route traffic now).1.speed ∧
    (updateVehiclePosition defaultParams s route traffic now).1.speed ≤
      defaultParams.maxSpeed ∧
    0 ≤ (updateVehiclePosition defaultParams s route traffic now).1.heading ∧
    (updateVehiclePosition defaultParams s route traffic now).1.heading < 360 := by
  simp only [updateVehiclePosition]
  rw [if_neg h1]
  have hlt : min (s.currentOrderIndex + 1) (route.waypoints.length - 1) <
      route.waypoints.length := by omega
  rw [List.getElem?_eq_getElem hlt]
  dsimp only
  have hsp0 := moveVehicleTowardsTarget_speed_nonneg defaultParams s
    (route.waypoints[min (s.currentOrderIndex + 1) (route.waypoints.length - 1)])
    traffic now
  have hsp1 := moveVehicleTowardsTarget_speed_le defaultParams s
    (route.waypoints[min (s.currentOrderIndex + 1) (route.waypoints.length - 1)])
    traffic now (by norm_num [defaultParams])
  have hh0 := moveVehicleTowardsTarget_heading_nonneg defaultParams s
    (route.waypoints[min (s.currentOrderIndex + 1) (route.waypoints.length - 1)])
    traffic now
  have hh1 := moveVehicleTowardsTarget_heading_lt defaultParams s
    (route.waypoints[min (s.currentOrderIndex + 1) (route.waypoints.length - 1)])
    traffic now
  split_ifs with hd
  · unfold handleWaypointArrival
    split_ifs with hw0 hwl
    · exact ⟨hsp0, hsp1, hh0, hh1⟩
    · refine ⟨le_rfl, by norm_num [defaultParams], hh0, hh1⟩
    · exact ⟨hsp0, hsp1, hh0, hh1⟩
  · exact ⟨hsp0, hsp1, hh0, hh1⟩

/-- Claim C2, witness for the amended theorem at the concrete scenario. -/
theorem spec2_C2_witness :
    initC1.status ≠ .COMPLETED ∧ 2 ≤ routeC1.waypoints.length ∧
    0 ≤ (updateVehiclePosition defaultParams initC1 routeC1 1 0).1.speed ∧
    (updateVehiclePosition defaultParams initC1 routeC1 1 0).1.heading < 360 := by
  have h := spec2_C2_amended initC1 routeC1 1 0 (by decide)
    (by rw [routeC1_waypoints]; norm_num)
  exact ⟨by decide, by rw [routeC1_waypoints]; norm_num, h.1, h.2.2.2⟩

/-- Claim C3, counterexample.  The claim says that finishing a
`DELIVERING` episode at interior waypoint `i` sets progress to
`(i ÷ total number of waypoints) × 100`.  The source divides by
`len(waypoints) - 1`, not by the number of waypoints: in the concrete
3-waypoint route, arrival at interior waypoint 1 sets progress to 50,
while the claim's formula gives `1/3 × 100`. -/
theorem spec2_C3_counterexample :
    (handleWaypointArrival defaultParams initC1 routeC1 1).1.progress = 50 ∧
    (handleWaypointArrival defaultParams initC1 routeC1 1).1.progress ≠
      (1 : ℝ) / 3 * 100 := by
  have hp : (handleWaypointArrival defaultParams initC1 routeC1 1).1.progress =
      (1 : ℝ) / ((3 : ℝ) - 1) * 100 := by
    unfold handleWaypointArrival
    rw [if_neg (by norm_num), if_neg (by rw [routeC1_waypoints]; norm_num)]
    show ((1 : ℕ) : ℝ) / ((routeC1.waypoints.length : ℝ) - 1) * 100 = _
    rw [routeC1_waypoints]
    norm_num
  rw [hp]
  norm_num

/-- Claim C3, amended: finishing a `DELIVERING` episode at interior
waypoint `i` (that is, `1 ≤ i < len(waypoints) - 1`) sets the status back
to `MOVING`, advances the current-waypoint index to `i`, and sets progress
to `(i ÷ (len(waypoints) - 1)) × 100` — the divisor is the number of
waypoints minus one, not the number of waypoints. -/
theorem spec2_C3_amended (p : SimParams) (s : VehicleState)
    (route : SimulationRoute) (i : ℕ) (h1 : 1 ≤ i)
    (h2 : i < route.waypoints.length - 1) :
    (handleWaypointArrival p s route i).1.status = .MOVING ∧
    (handleWaypointArrival p s route i).1.currentOrderIndex = i ∧
    (handleWaypointArrival p s route i).1.progress =
      (i : ℝ) / ((route.waypoints.length : ℝ) - 1) * 100 := by
  unfold handleWaypointArrival
  rw [if_neg (by omega), if_neg (by omega)]
  exact ⟨rfl, rfl, rfl⟩

/-- Claim C3, witness for the amended theorem: arrival at interior
waypoint 1 of the concrete 3-waypoint route. -/
theorem spec2_C3_witness :
    1 ≤ 1 ∧ 1 < routeC1.waypoints.length - 1 ∧
    (handleWaypointArrival defaultParams initC1 routeC1 1).1.status = .MOVING ∧
    (handleWaypointArrival defaultParams initC1 routeC1 1).1.currentOrderIndex = 1 := by
  have h := spec2_C3_amended defaultParams initC1 routeC1 1 le_rfl
    (by rw [routeC1_waypoints]; norm_num)
  exact ⟨le_rfl, by rw [routeC1_waypoints]; norm_num, h.1, h.2.1⟩

/-- Angular separation of two headings on the circle (the length of the
shorter rotational arc between them) — the spec-side notion used by the
"shorter rotational direction" requirement. -/
noncomputable def angularSeparation (a b : ℝ) : ℝ :=
  min (normalizeAngle (a - b)) (normalizeAngle (b - a))

/-- Claim C6.  The claim says the heading moves toward the bearing by at
most 30° per tick, turning in the shorter rotational direction whenever
the difference exceeds 30°.  The source computes `heading_diff =
_normalize_angle(bearing - heading) ∈ [0, 360)`, which is never negative,
so `turn_direction` is always `+1` (the `else -1` branch is dead) and the
vehicle always turns clockwise.  At heading 0° with bearing 350° the
shorter direction is 10° counterclockwise — reachable within the 30°
budget, since `normalizeAngle (0 - 10) = 350` — yet the code turns to
30°, increasing the separation from the bearing from 10° to 40°. -/
theorem spec2_C6_turn_bug :
    updateHeading 0 350 = 30 ∧
    angularSeparation 350 0 = 10 ∧
    angularSeparation 350 30 = 40 ∧
    angularSeparation 350 0 < angularSeparation 350 30 ∧
    angularSeparation 350 (normalizeAngle (0 - 10)) = 0 := by
  have n350 : normalizeAngle (350 - 0) = 350 := by
    rw [show (350 : ℝ) - 0 = 350 by norm_num]
    exact normalizeAngle_self 350 (by norm_num) (by norm_num)
  have nm350 : normalizeAngle (0 - 350) = 10 := by
    refine normalizeAngle_eq_of _ 10 (-1) (by push_cast; norm_num)
      (by norm_num) (by norm_num)
  have n320 : normalizeAngle (350 - 30) = 320 := by
    rw [show (350 : ℝ) - 30 = 320 by norm_num]
    exact normalizeAngle_self 320 (by norm_num) (by norm_num)
  have nm320 : normalizeAngle (30 - 350) = 40 := by
    refine normalizeAngle_eq_of _ 40 (-1) (by push_cast; norm_num)
      (by norm_num) (by norm_num)
  have nm10 : normalizeAngle (0 - 10) = 350 := by
    refine normalizeAngle_eq_of _ 350 (-1) (by push_cast; norm_num)
      (by norm_num) (by norm_num)
  have hturn : updateHeading 0 350 = 30 := by
    simp only [updateHeading]
    rw [n350, if_pos (by norm_num : |(350 : ℝ)| > 30),
      if_pos (by norm_num : (350 : ℝ) > 0)]
    rw [show (0 : ℝ) + 1 * 30 = 30 by norm_num]
    exact normalizeAngle_self 30 (by norm_num) (by norm_num)
  refine ⟨hturn, ?_, ?_, ?_, ?_⟩
  · unfold angularSeparation
    rw [n350, nm350]
    norm_num
  · unfold angularSeparation
    rw [n320, nm320]
    norm_num
  · unfold angularSeparation
    rw [n350, nm350, n320, nm320]
    norm_num
  · unfold angularSeparation
    rw [nm10, sub_self, normalizeAngle_self 0 le_rfl (by norm_num)]
    norm_num

/-- A `MOVING` vehicle loaded with 4000 kg. -/
noncomputable def movingStateC7 : VehicleState :=
  { vehicleId := "veh-1"
    latitude := 0
    longitude := 0
    speed := 0
    heading := 0
    status := .MOVING
    currentCargo := 4000
    fuelUsed := 0
    progress := 0 }

/-- The same vehicle with 1000 kg of cargo. -/
noncomputable def movingStateC7b : VehicleState :=
  { movingStateC7 with currentCargo := 1000 }

/-- Claim C7, counterexample.  The claim states that for every cargo value
the cargo-dependent reduction never exceeds 20%.  The source's factor
`1 - cargo/2000 * 0.2` is not clamped: with 4000 kg of cargo and a neutral
traffic factor of 1 the target speed is `45 * 0.6 = 27` km/h — a 40%
reduction, below `0.8 * 45 = 36`. -/
theorem spec2_C7_counterexample :
    calculateTargetSpeed defaultParams movingStateC7 1 = 27 ∧
    calculateTargetSpeed defaultParams movingStateC7 1 < 0.8 * 45 := by
  have h : calculateTargetSpeed defaultParams movingStateC7 1 = 27 := by
    unfold calculateTargetSpeed
    rw [if_neg (by decide), if_neg (by decide)]
    show max defaultParams.minSpeed (min defaultParams.maxSpeed
      (defaultParams.averageSpeed * (1 - movingStateC7.currentCargo / 2000 * 0.2) * 1)) = 27
    norm_num [defaultParams, movingStateC7, min_def, max_def]
  exact ⟨h, by rw [h]; norm_num⟩

/-- Claim C7, amended: the target speed is zero while `IDLE` or
`DELIVERING` (see the zero-case conjunct of `spec2_C7_counterexample`'s
underlying definition); otherwise it is the base 45 km/h scaled by the
cargo factor `1 - cargo/2000 * 0.2` and by the traffic factor, clamped to
`[20, 80]`; the cargo-dependent reduction stays within 20% provided the
cargo does not exceed 2000 kg (it is not clamped and exceeds 20% beyond
that load). -/
theorem spec2_C7_amended (s : VehicleState) (traffic : ℝ)
    (h1 : s.status ≠ .IDLE) (h2 : s.status ≠ .DELIVERING)
    (hc0 : 0 ≤ s.currentCargo) (hc : s.currentCargo ≤ 2000)
    (_ht0 : 0.8 ≤ traffic) (_ht1 : traffic ≤ 1.2) :
    calculateTargetSpeed defaultParams s traffic =
      max 20 (min 80 (45 * (1 - s.currentCargo / 2000 * 0.2) * traffic)) ∧
    0.8 ≤ 1 - s.currentCargo / 2000 * 0.2 ∧
    1 - s.currentCargo / 2000 * 0.2 ≤ 1 ∧
    20 ≤ calculateTargetSpeed defaultParams s traffic ∧
    calculateTargetSpeed defaultParams s traffic ≤ 80 ∧
    (∀ s2 : VehicleState, ∀ t2 : ℝ, (s2.status = .IDLE ∨ s2.status = .DELIVERING) →
      calculateTargetSpeed defaultParams s2 t2 = 0) := by
  have heq : calculateTargetSpeed defaultParams s traffic =
      max 20 (min 80 (45 * (1 - s.currentCargo / 2000 * 0.2) * traffic)) := by
    unfold calculateTargetSpeed
    rw [if_neg h2, if_neg h1]
    rfl
  refine ⟨heq, by linarith, by linarith, ?_, ?_, ?_⟩
  · rw [heq]; exact le_max_left _ _
  · rw [heq]; exact max_le (by norm_num) (min_le_left _ _)
  · intro s2 t2 hst
    unfold calculateTargetSpeed
    rcases hst with hst | hst <;> rw [hst] <;> simp

/-- Claim C7, witness for the amended theorem at 1000 kg of cargo and a
neutral traffic factor. -/
theorem spec2_C7_witness :
    movingStateC7b.currentCargo ≤ 2000 ∧
    20 ≤ calculateTargetSpeed defaultParams movingStateC7b 1 ∧
    calculateTargetSpeed defaultParams movingStateC7b 1 ≤ 80 := by
  have h := spec2_C7_amended movingStateC7b 1 (by decide) (by decide)
    (by norm_num [movingStateC7b, movingStateC7])
    (by norm_num [movingStateC7b, movingStateC7])
    (by norm_num) (by norm_num)
  exact ⟨by norm_num [movingStateC7b, movingStateC7], h.2.2.2.1, h.2.2.2.2.1⟩

/-- Claim C9: `get_optimized_route_order` returns the identity order
`[0, …, n-1]` whenever the remote trip request fails in any way — raised
exception, non-200 status, bad `code`, or empty `trips`.  The operation
consults no cache and performs no local optimization (its definition takes
no cache and computes nothing but `List.range` on failure). -/
theorem spec2_C9 (r : HttpResult OsrmTripBody) (depot : RoutePoint)
    (pts : List RoutePoint)
    (h : ∀ status body, r = .resp status body →
      ¬ (status = 200 ∧ body.codeOk = true ∧ body.trips ≠ [])) :
    getOptimizedRouteOrder r depot pts = List.range pts.length := by
  cases r with
  | exn => rfl
  | resp status body =>
    unfold getOptimizedRouteOrder
    dsimp only
    rw [if_neg (h status body rfl)]

/-- Claim C9, witness: a network exception with two delivery points yields
the identity order `[0, 1]`. -/
theorem spec2_C9_witness :
    getOptimizedRouteOrder .exn depotC1 [depotC1, stopC1] = [0, 1] := by
  have h := spec2_C9 .exn depotC1 [depotC1, stopC1]
    (by intro st b hh; cases hh)
  rw [h]
  rfl

/-- Claim C10: `set_simulation_speed` stores `max(1, min(1000, m))`, which
always lies in `[1, 1000]` and equals `m` whenever `m` already lies in that
range; the multiplier starts at 100 and, being mutated by no other
operation, every reachable value lies in `[1, 1000]`. -/
theorem spec2_C10 :
    (∀ m : ℝ, 1 ≤ setSimulationSpeed m ∧ setSimulationSpeed m ≤ 1000 ∧
      (1 ≤ m → m ≤ 1000 → setSimulationSpeed m = m)) ∧
    (1 ≤ initialSimulationSpeedMultiplier ∧
      initialSimulationSpeedMultiplier ≤ 1000) ∧
    (∀ v : ℝ, MultiplierReachable v → 1 ≤ v ∧ v ≤ 1000) := by
  have hb : ∀ m : ℝ, 1 ≤ setSimulationSpeed m ∧ setSimulationSpeed m ≤ 1000 := by
    intro m
    unfold setSimulationSpeed
    exact ⟨le_max_left _ _, max_le (by norm_num) (min_le_left _ _)⟩
  refine ⟨fun m => ⟨(hb m).1, (hb m).2, fun hm1 hm2 => ?_⟩, ⟨?_, ?_⟩, ?_⟩
  · unfold setSimulationSpeed
    rw [min_eq_right hm2, max_eq_right hm1]
  · norm_num [initialSimulationSpeedMultiplier]
  · norm_num [initialSimulationSpeedMultiplier]
  · intro v hv
    induction hv with
    | start => norm_num [initialSimulationSpeedMultiplier]
    | set m prev hprev ih => exact hb m

/-- Claim C10, witness: in-range and out-of-range inputs. -/
theorem spec2_C10_witness :
    setSimulationSpeed 500 = 500 ∧ setSimulationSpeed 5000 ≤ 1000 ∧
    1 ≤ setSimulationSpeed 0.5 := by
  exact ⟨(spec2_C10.1 500).2.2 (by norm_num) (by norm_num),
    (spec2_C10.1 5000).2.1, (spec2_C10.1 0.5).1⟩

/-! ## Concrete routing-client scenario -/

/-- A fresh client with default configuration and empty caches. -/
noncomputable def clientC4 : OsrmClientState := {}

/-- A well-formed route response. -/
noncomputable def goodRouteBody : OsrmRouteBody :=
  { codeOk := true
    routes := [{ coordinates := [(0, 0), (1, 1)], distance := 1234, duration := 60 }] }

/-- A network where the first request raises and every later request would
succeed — the situation in which a retrying client recovers. -/
noncomputable def netRetryWouldSucceed : ℕ → String → HttpResult OsrmRouteBody :=
  fun attempt _ => if attempt = 0 then .exn else .resp 200 goodRouteBody

/-- A network where every request raises (service unreachable). -/
noncomputable def netAllFail : ℕ → String → HttpResult OsrmRouteBody :=
  fun _ _ => .exn

noncomputable def pointA : RoutePoint := { latitude := 0, longitude := 0, name := "a" }

noncomputable def pointB : RoutePoint := { latitude := 1, longitude := 1, name := "b" }

/-- On a cache miss whose single request fails, `get_route_geometry_async`
returns the local fallback after exactly one request, without touching the
cache or the current URL. -/
theorem getRouteGeometryAsync_fallback (client : OsrmClientState)
    (net : ℕ → String → HttpResult OsrmRouteBody) (startP endP : RoutePoint)
    (viaPoints : List RoutePoint) (now : ℝ)
    (hmiss : cacheLookup client.routeCache
      ((startP :: (viaPoints ++ [endP])).map fun pt => (pt.longitude, pt.latitude))
      now client.cacheTtl = none)
    (hfail : fetchRouteGeometry (net 0 client.currentUrl) = none) :
    getRouteGeometryAsync client net startP endP viaPoints now =
      { geometry := createFallbackGeometry (startP :: (viaPoints ++ [endP]))
        requestsMade := 1
        usedFallback := true
        routeCacheAfter := client.routeCache } := by
  simp only [getRouteGeometryAsync]
  rw [hmiss, hfail]

/-- Claim C4, counterexample.  The claim asserts that `route_geometry`
retries up to 3 attempts with backoff and an endpoint switch before
falling back.  With a network that fails only on the first request, the
code issues exactly one request and returns the fallback, even though a
second attempt would have succeeded: `_fetch_route_geometry` contains no
retry loop at all. -/
theorem spec2_C4_counterexample :
    (getRouteGeometryAsync clientC4 netRetryWouldSucceed pointA pointB [] 0).requestsMade = 1 ∧
    (getRouteGeometryAsync clientC4 netRetryWouldSucceed pointA pointB [] 0).usedFallback = true ∧
    fetchRouteGeometry (netRetryWouldSucceed 1 clientC4.fallbackUrl) ≠ none := by
  have h := getRouteGeometryAsync_fallback clientC4 netRetryWouldSucceed
    pointA pointB [] 0 (by simp [cacheLookup, clientC4]) rfl
  rw [h]
  refine ⟨rfl, rfl, ?_⟩
  simp [netRetryWouldSucceed, fetchRouteGeometry, goodRouteBody]

/-- Claim C4, amended: `route_geometry` shares the cache and the
local-fallback discipline with `distance_matrix`, but performs no retries
and no endpoint switch: on a cache miss it issues a single request to the
client's current endpoint and on any failure immediately returns the
local fallback, whereas the distance-matrix fetch retries up to
`max_retries` (3) attempts before giving up. -/
theorem spec2_C4_amended (client : OsrmClientState)
    (net : ℕ → String → HttpResult OsrmRouteBody) (startP endP : RoutePoint)
    (viaPoints : List RoutePoint) (now : ℝ)
    (hmiss : cacheLookup client.routeCache
      ((startP :: (viaPoints ++ [endP])).map fun pt => (pt.longitude, pt.latitude))
      now client.cacheTtl = none)
    (hfail : fetchRouteGeometry (net 0 client.currentUrl) = none) :
    (getRouteGeometryAsync client net startP endP viaPoints now).geometry =
      createFallbackGeometry (startP :: (viaPoints ++ [endP])) ∧
    (getRouteGeometryAsync client net startP endP viaPoints now).requestsMade = 1 ∧
    (getRouteGeometryAsync client net startP endP viaPoints now).routeCacheAfter =
      client.routeCache ∧
    (∀ c2 : OsrmClientState, c2.maxRetries = 3 →
      (fetchDistanceMatrix (fun _ _ => .exn) c2).1 = none ∧
      (fetchDistanceMatrix (fun _ _ => .exn) c2).2.2 = 3) := by
  rw [getRouteGeometryAsync_fallback client net startP endP viaPoints now hmiss hfail]
  refine ⟨rfl, rfl, rfl, ?_⟩
  intro c2 h3
  unfold fetchDistanceMatrix
  rw [h3]
  simp [fetchDistanceMatrixGo]

/-- Claim C4, witness for the amended theorem: fresh client, network down. -/
theorem spec2_C4_witness :
    cacheLookup clientC4.routeCache
      ((pointA :: ([] ++ [pointB])).map fun pt => (pt.longitude, pt.latitude))
      0 clientC4.cacheTtl = none ∧
    (getRouteGeometryAsync clientC4 netAllFail pointA pointB [] 0).requestsMade = 1 ∧
    (fetchDistanceMatrix (fun _ _ => .exn) clientC4).2.2 = 3 := by
  have h := spec2_C4_amended clientC4 netAllFail pointA pointB [] 0
    (by simp [cacheLookup, clientC4]) rfl
  exact ⟨by simp [cacheLookup, clientC4], h.2.1, (h.2.2.2 clientC4 rfl).2⟩

/-- Claim C5: when the remote service is unreachable (the request raises)
and the cache misses, `route_geometry` returns the fallback geometry: its
coordinate sequence is exactly the given points in order, its distance in
meters is 1000 times the sum of haversine (Earth radius 6371 km) segment
distances in kilometers between consecutive points, and its duration
assumes a fixed 50 km/h average speed.  The fallback is a total function:
it always succeeds. -/
theorem spec2_C5 (client : OsrmClientState)
    (net : ℕ → String → HttpResult OsrmRouteBody) (startP endP : RoutePoint)
    (viaPoints : List RoutePoint) (now : ℝ)
    (hmiss : cacheLookup client.routeCache
      ((startP :: (viaPoints ++ [endP])).map fun pt => (pt.longitude, pt.latitude))
      now client.cacheTtl = none)
    (hexn : net 0 client.currentUrl = .exn) :
    (getRouteGeometryAsync client net startP endP viaPoints now).geometry =
      createFallbackGeometry (startP :: (viaPoints ++ [endP])) ∧
    (getRouteGeometryAsync client net startP endP viaPoints now).geometry.coordinates =
      (startP :: (viaPoints ++ [endP])).map (fun pt => (pt.latitude, pt.longitude)) ∧
    (getRouteGeometryAsync client net startP endP viaPoints now).geometry.distance =
      1000 * ((((startP :: (viaPoints ++ [endP])).map
          (fun pt => (pt.latitude, pt.longitude))).zip
        (((startP :: (viaPoints ++ [endP])).map
          (fun pt => (pt.latitude, pt.longitude))).tail)).map
        (fun pr => haversineDistance pr.1 pr.2)).sum ∧
    (getRouteGeometryAsync client net startP endP viaPoints now).geometry.duration =
      (getRouteGeometryAsync client net startP endP viaPoints now).geometry.distance /
        1000 / 50 * 3600 := by
  rw [getRouteGeometryAsync_fallback client net startP endP viaPoints now hmiss
    (by rw [hexn]; rfl)]
  refine ⟨rfl, rfl, ?_, ?_⟩
  · show (createFallbackGeometry (startP :: (viaPoints ++ [endP]))).distance = _
    unfold createFallbackGeometry
    dsimp only
    ring
  · show (createFallbackGeometry (startP :: (viaPoints ++ [endP]))).duration = _
    unfold createFallbackGeometry
    dsimp only
    ring

/-- Claim C5, witness: fresh client, network down, path `pointA → pointB`. -/
theorem spec2_C5_witness :
    netAllFail 0 clientC4.currentUrl = .exn ∧
    (getRouteGeometryAsync clientC4 netAllFail pointA pointB [] 0).geometry.coordinates =
      [((0 : ℝ), (0 : ℝ)), ((1 : ℝ), (1 : ℝ))] := by
  have h := spec2_C5 clientC4 netAllFail pointA pointB [] 0
    (by simp [cacheLookup, clientC4]) rfl
  refine ⟨rfl, ?_⟩
  rw [h.2.1]
  simp [pointA, pointB]

/-! ## Two-vehicle tick with a delivery pause -/

/-- Vehicle A's single order, located at the depot's own coordinates, so
that A's very first tick triggers an interior-waypoint arrival and hence a
delivery pause. -/
noncomputable def orderC8 : Order :=
  { location := { lat := 0, lon := 0, name := "stop-A" }, weight := 100 }

noncomputable def stopC8 : RoutePoint :=
  { latitude := 0, longitude := 0, name := "stop-A", weight := 100 }

noncomputable def routeC8 : SimulationRoute :=
  { vehicleId := "veh-A"
    waypoints := buildWaypoints depotC1 [orderC8]
    orders := [orderC8] }

noncomputable def vehC8 : VehicleState :=
  initialVehicleState "veh-A" depotC1 [orderC8] 0

/-- Vehicle A's first tick arrives at interior waypoint 1 and performs an
inline `await asyncio.sleep` of `3 * 60 / 100 = 1.8` seconds on the single
simulation-loop task. -/
theorem delivery_tick_routeC8 (traffic now : ℝ) :
    (updateVehiclePosition defaultParams vehC8 routeC8 traffic now).2 = 9 / 5 := by
  have hst : vehC8.status = VehicleStatus.IDLE := rfl
  have hla : vehC8.latitude = 0 := rfl
  have hlo : vehC8.longitude = 0 := rfl
  have hsp : vehC8.speed = 0 := rfl
  have hoi : vehC8.currentOrderIndex = 0 := rfl
  have hwp : routeC8.waypoints = [depotC1, stopC8, depotC1] := rfl
  simp only [updateVehiclePosition, hst, hoi, hwp]
  norm_num
  unfold moveVehicleTowardsTarget calculateTargetSpeed
  simp only [hst, hla, hlo, hsp]
  norm_num [defaultParams, stopC8, moveAlongBearing_equator_zero,
    calculateDistance_self]
  unfold handleWaypointArrival
  rw [if_neg (show ¬ (1 : ℕ) = 0 by norm_num),
    if_neg (show ¬ (1 : ℕ) = routeC8.waypoints.length - 1 by rw [hwp]; norm_num)]
  show defaultParams.deliveryTime * 60 / defaultParams.simulationSpeedMultiplier = 9 / 5
  norm_num [defaultParams]

/-- Claim C8.  The claim states that a delivery pause suspends only the
delivering vehicle's advancement and never blocks the shared tick loop.
In the source the pause is an inline `await asyncio.sleep` inside
`_handle_waypoint_arrival`, executed on the single simulation-loop task
while the loop's sequential per-vehicle iteration is in progress: in a
tick where vehicle A (whose stop coincides with the depot) delivers,
vehicle B's advancement begins only after A's 1.8-second pause, and the
tick's end-of-tick broadcast is delayed by the same 1.8 seconds — the
pause is global, not per-vehicle. -/
theorem spec2_C8_global_sleep :
    (runTick defaultParams 0 [(vehC8, routeC8, 1), (initC1, routeC1, 1)]).1.map
      Prod.snd = [0, 9 / 5] ∧
    (runTick defaultParams 0 [(vehC8, routeC8, 1), (initC1, routeC1, 1)]).2 = 9 / 5 ∧
    (0 : ℝ) < 9 / 5 := by
  have hA : (updateVehiclePosition defaultParams vehC8 routeC8 1 0).2 = 9 / 5 :=
    delivery_tick_routeC8 1 0
  have hB : (updateVehiclePosition defaultParams initC1 routeC1 1 0).2 = 0 := by
    rw [idle_tick_routeC1 initC1 rfl rfl rfl rfl rfl 1 0]
  simp only [runTick, runTickGo]
  rw [if_neg (by decide : ¬ (vehC8.status = VehicleStatus.COMPLETED)),
    if_neg (by decide : ¬ (initC1.status = VehicleStatus.COMPLETED))]
  rw [hA, hB]
  norm_num

end RouteOptDemo
